import Mathlib

/-
Verification of the session and memory subsystem of the Bates student-advisor
agent, shallowly embedded from `bates_agent/tools/session_memory.py` and the
routing function of `bates_agent/agent.py`.

Modelling conventions:
* Python dicts are association lists with unique keys in insertion order;
  `dictGet` is `d.get(k)` / `d[k]`, `dictSet` is `d[k] = v` (it replaces in
  place when the key exists and appends otherwise, matching dict insertion
  order semantics).
* `datetime` values are abstract instants modelled as `Int`; `isoformat` /
  `fromisoformat` form a bijection on datetime values
  (`datetime.fromisoformat(d.isoformat()) == d`), so a timestamp and its
  ISO-8601 rendering are represented by the same abstract value.
* Functions that read the ambient clock (`datetime.now()`) take the current
  instant as an explicit `now` argument.
* Python's `l[-n:]` is `lastN n l`.
-/

/-! ### Python dict as an association list -/

def dictGet {κ α : Type} [DecidableEq κ] : List (κ × α) → κ → Option α
  | [], _ => none
  | (k1, v) :: rest, k => if k1 = k then some v else dictGet rest k

def dictSet {κ α : Type} [DecidableEq κ] : List (κ × α) → κ → α → List (κ × α)
  | [], k, v => [(k, v)]
  | (k1, v1) :: rest, k, v =>
      if k1 = k then (k, v) :: rest else (k1, v1) :: dictSet rest k v

def lastN {α : Type} (n : Nat) (l : List α) : List α := l.drop (l.length - n)

/-- One entry of `questions_asked`: `{"question", "category", "timestamp"}`. -/
structure QuestionEntry where
  question : String
  category : String
  timestamp : Int
deriving DecidableEq

/-- One entry of `recommendations_given`:
`{"recommendation", "context", "timestamp"}`. -/
structure RecommendationEntry where
  recommendation : String
  context : String
  timestamp : Int
deriving DecidableEq

structure StudentProfile where
  student_id : String
  created_at : Int
  last_active : Int
  interests : List String
  programs_viewed : List String
  questions_asked : List QuestionEntry
  recommendations_given : List RecommendationEntry
  interaction_count : Nat
  preferences : List (String × String)
deriving DecidableEq

/-- `StudentProfile.__init__`. -/
def StudentProfile.init (student_id : String) (now : Int) : StudentProfile :=
  { student_id := student_id
    created_at := now
    last_active := now
    interests := []
    programs_viewed := []
    questions_asked := []
    recommendations_given := []
    interaction_count := 0
    preferences := [] }

/-- `StudentProfile.update_activity`. -/
def StudentProfile.update_activity (p : StudentProfile) (now : Int) : StudentProfile :=
  { p with last_active := now, interaction_count := p.interaction_count + 1 }

/-- `StudentProfile.add_interest`. -/
def StudentProfile.add_interest (p : StudentProfile) (interest : String) : StudentProfile :=
  if interest ∈ p.interests then p
  else { p with interests := p.interests ++ [interest] }

/-- `StudentProfile.add_program_view`. -/
def StudentProfile.add_program_view (p : StudentProfile) (program : String) : StudentProfile :=
  if program ∈ p.programs_viewed then p
  else { p with programs_viewed := p.programs_viewed ++ [program] }

/-- `StudentProfile.add_question`: append the new entry, then keep only the
last 50 when the list has grown beyond 50. -/
def StudentProfile.add_question (p : StudentProfile)
    (question category : String) (now : Int) : StudentProfile :=
  let qa := p.questions_asked ++
    [{ question := question, category := category, timestamp := now }]
  { p with questions_asked :=
      if 50 < qa.length then qa.drop (qa.length - 50) else qa }

/-- `StudentProfile.add_recommendation`: append the new entry, then keep only
the last 20 when the list has grown beyond 20. -/
def StudentProfile.add_recommendation (p : StudentProfile)
    (recommendation context : String) (now : Int) : StudentProfile :=
  let rg := p.recommendations_given ++
    [{ recommendation := recommendation, context := context, timestamp := now }]
  { p with recommendations_given :=
      if 20 < rg.length then rg.drop (rg.length - 20) else rg }

/-! ### Profile snapshot dictionaries (`to_dict` / `from_dict`) -/

/-- The dictionary produced by `StudentProfile.to_dict` and consumed by
`StudentProfile.from_dict`.  `created_at` / `last_active` hold the
`isoformat` rendering of the datetime, modelled by the abstract instant
itself (`fromisoformat` inverts `isoformat` exactly). -/
structure ProfileDict where
  student_id : String
  created_at : Int
  last_active : Int
  interests : List String
  programs_viewed : List String
  questions_asked : List QuestionEntry
  recommendations_given : List RecommendationEntry
  interaction_count : Nat
  preferences : List (String × String)
deriving DecidableEq

/-- `StudentProfile.to_dict`. -/
def StudentProfile.to_dict (p : StudentProfile) : ProfileDict :=
  { student_id := p.student_id
    created_at := p.created_at
    last_active := p.last_active
    interests := p.interests
    programs_viewed := p.programs_viewed
    questions_asked := p.questions_asked
    recommendations_given := p.recommendations_given
    interaction_count := p.interaction_count
    preferences := p.preferences }

/-- `StudentProfile.from_dict`: builds `cls(data["student_id"])` and then
overwrites every field from the dictionary (each field key is present in any
dictionary produced by `to_dict`, so the `.get` defaults never fire there). -/
def StudentProfile.from_dict (data : ProfileDict) : StudentProfile :=
  { student_id := data.student_id
    created_at := data.created_at
    last_active := data.last_active
    interests := data.interests
    programs_viewed := data.programs_viewed
    questions_asked := data.questions_asked
    recommendations_given := data.recommendations_given
    interaction_count := data.interaction_count
    preferences := data.preferences }

/-! ### MemoryBank (`session_memory.py`, class BatesMemoryBank) -/

/-- The metadata dictionary attached to a stored interaction.  A field with
value `none` models the key being absent (or, for `topic` on the session
path, the key holding Python `None`). -/
structure Metadata where
  session_id : Option String
  agent_response : Option String
  topic : Option String
deriving DecidableEq

/-- The empty metadata dictionary (`metadata or {}` with `metadata=None`). -/
def Metadata.empty : Metadata :=
  { session_id := none, agent_response := none, topic := none }

/-- One stored interaction record:
`{"timestamp", "type", "content", "metadata"}`. -/
structure Interaction where
  timestamp : Int
  interaction_type : String
  content : String
  metadata : Metadata
deriving DecidableEq

/-- In-memory state of `BatesMemoryBank`: `self.profiles` and
`self.interaction_history`. -/
structure MemoryBank where
  profiles : List (String × StudentProfile)
  interaction_history : List (String × List Interaction)
deriving DecidableEq

/-- The in-memory state of a bank before `_load_profiles` runs (both maps
start empty in `__init__`). -/
def MemoryBank.init : MemoryBank :=
  { profiles := [], interaction_history := [] }

/-- `BatesMemoryBank.get_or_create_profile`: create the profile on first
reference, then touch it (`update_activity`) and return it. -/
def MemoryBank.get_or_create_profile (b : MemoryBank) (student_id : String)
    (now : Int) : StudentProfile × MemoryBank :=
  let p0 := match dictGet b.profiles student_id with
    | none => StudentProfile.init student_id now
    | some p => p
  let p := p0.update_activity now
  (p, { b with profiles := dictSet b.profiles student_id p })

/-- `BatesMemoryBank.store_interaction`: append the interaction to the
student's history, then keep only the last 100 when it has grown beyond
100.  (The periodic `_save_profiles` trigger does not change the in-memory
state and is modelled separately.) -/
def MemoryBank.store_interaction (b : MemoryBank)
    (student_id interaction_type content : String)
    (metadata : Option Metadata) (now : Int) : MemoryBank :=
  let hist := (dictGet b.interaction_history student_id).getD []
  let hist2 := hist ++
    [{ timestamp := now, interaction_type := interaction_type,
       content := content, metadata := metadata.getD Metadata.empty }]
  let hist3 := if 100 < hist2.length then hist2.drop (hist2.length - 100) else hist2
  { b with interaction_history := dictSet b.interaction_history student_id hist3 }

/-- `BatesMemoryBank._generate_context_summary`. -/
def generate_context_summary (profile : StudentProfile)
    (interactions : List Interaction) : String :=
  let parts1 : List String :=
    if profile.interests.isEmpty then []
    else ["Student interests: " ++ String.intercalate ", " (profile.interests.take 3)]
  let parts2 : List String :=
    if profile.programs_viewed.isEmpty then parts1
    else parts1 ++
      ["Programs viewed: " ++ String.intercalate ", " (lastN 3 profile.programs_viewed)]
  let parts3 : List String :=
    if interactions.isEmpty then parts2
    else parts2 ++
      ["Recent topics: " ++ String.intercalate ", "
        ((lastN 3 interactions).map (fun i => i.metadata.topic.getD "general"))]
  if parts3.isEmpty then "New student interaction"
  else String.intercalate "; " parts3

/-- The dictionary returned by `BatesMemoryBank.get_student_context`. -/
structure StudentContext where
  profile : ProfileDict
  recent_interactions : List Interaction
  context_summary : String
deriving DecidableEq

/-- `BatesMemoryBank.get_student_context` (its `get_or_create_profile` call
touches the profile, so the bank state it leaves behind is returned too). -/
def MemoryBank.get_student_context (b : MemoryBank) (student_id : String)
    (now : Int) : StudentContext × MemoryBank :=
  let pb := b.get_or_create_profile student_id now
  let recent := lastN 10 ((dictGet pb.2.interaction_history student_id).getD [])
  ({ profile := pb.1.to_dict
     recent_interactions := recent
     context_summary := generate_context_summary pb.1 recent }, pb.2)

/-! ### Snapshot persistence (`_load_profiles` / `_save_profiles`) -/

/-- State of one snapshot file as seen by the store: absent, unreadable or
half-written (opening or `json.load`/`json.dump` raises), or readable with
parsed content. -/
inductive FileState (α : Type) where
  | missing : FileState α
  | corrupt : FileState α
  | ok : α → FileState α
deriving DecidableEq

/-- The two independent snapshot files of the memory bank. -/
structure SnapshotFiles where
  profilesFile : FileState (List (String × ProfileDict))
  interactionsFile : FileState (List (String × List Interaction))
deriving DecidableEq

/-- The loop body of `_load_profiles`:
`for sid, pd in data.items(): self.profiles[sid] = StudentProfile.from_dict(pd)`. -/
def loadAllProfiles (start : List (String × StudentProfile))
    (data : List (String × ProfileDict)) : List (String × StudentProfile) :=
  data.foldl (fun acc sd => dictSet acc sd.1 (StudentProfile.from_dict sd.2)) start

/-- `BatesMemoryBank._load_profiles`.  The whole body sits in one
`try/except` that logs and swallows any exception: a `corrupt` file raises,
aborting the rest of the body but leaving the state built so far; a
`missing` file is skipped by the `exists()` check. -/
def MemoryBank.load_profiles (b : MemoryBank) (fs : SnapshotFiles) : MemoryBank :=
  match fs.profilesFile with
  | .corrupt => b
  | .missing =>
      match fs.interactionsFile with
      | .corrupt => b
      | .missing => b
      | .ok hist => { b with interaction_history := hist }
  | .ok data =>
      let b1 := { b with profiles := loadAllProfiles b.profiles data }
      match fs.interactionsFile with
      | .corrupt => b1
      | .missing => b1
      | .ok hist => { b1 with interaction_history := hist }

/-- The `profiles_data` dictionary `_save_profiles` serializes:
`{sid: profile.to_dict() for sid, profile in self.profiles.items()}`. -/
def save_profiles_data (b : MemoryBank) : List (String × ProfileDict) :=
  b.profiles.map (fun sp => (sp.1, sp.2.to_dict))

/-- Which of the two file writes of `_save_profiles` raise an I/O error. -/
structure SaveOutcome where
  profilesWriteFails : Bool
  interactionsWriteFails : Bool
deriving DecidableEq

/-- `BatesMemoryBank._save_profiles`: writes `profiles.json` then
`interactions.json`; the whole body sits in one `try/except` that logs and
swallows any exception, so a failed first write also skips the second.  The
method assigns nothing to `self`, so the in-memory bank is returned
unchanged in every outcome. -/
def MemoryBank.save_profiles (b : MemoryBank) (fs : SnapshotFiles)
    (oc : SaveOutcome) : MemoryBank × SnapshotFiles :=
  if oc.profilesWriteFails then
    (b, { fs with profilesFile := .corrupt })
  else if oc.interactionsWriteFails then
    (b, { profilesFile := .ok (save_profiles_data b), interactionsFile := .corrupt })
  else
    (b, { profilesFile := .ok (save_profiles_data b),
          interactionsFile := .ok b.interaction_history })

/-! ### Router (`agent.py`, route_to_specialist) -/

/-- Python's `str.lower()` applied characterwise (the queries involved are
ASCII). -/
def lowerChars (l : List Char) : List Char := l.map Char.toLower

/-- `needle in haystack` starting at the front: `startsSeq kw q` holds when
`q` begins with `kw`. -/
def startsSeq : List Char → List Char → Bool
  | [], _ => true
  | _ :: _, [] => false
  | a :: as, b :: bs => a == b && startsSeq as bs

/-- Python's substring test `kw in q` over character lists. -/
def containsSeq (kw : List Char) : List Char → Bool
  | [] => kw.isEmpty
  | c :: rest => startsSeq kw (c :: rest) || containsSeq kw rest

/-- `any(keyword in query_lower for keyword in kws)`. -/
def matchesAny (kws : List String) (q : List Char) : Bool :=
  kws.any (fun k => containsSeq k.toList q)

def admissionsKeywords : List String :=
  ["admission", "apply", "application", "requirement", "prerequisite",
   "enroll", "registration", "placement", "test", "transcript"]

def academicsKeywords : List String :=
  ["program", "course", "class", "curriculum", "degree", "certificate",
   "major", "study", "academic", "credit", "semester", "quarter"]

def financialAidKeywords : List String :=
  ["financial", "aid", "scholarship", "grant", "loan", "tuition",
   "cost", "fee", "payment", "fafsa", "money", "afford"]

/-- The specialist agent objects the router can hand back (opaque here). -/
inductive SpecialistAgent where
  | admissionsAgent
  | academicsAgent
  | financialAidAgent
deriving DecidableEq

/-- The success dictionary returned by `route_to_specialist`. -/
structure RoutingResult where
  status : String
  specialist : String
  agent : Option SpecialistAgent
  routing_confidence : String
deriving DecidableEq

/-- `route_to_specialist` (`agent.py`): keyword routing over the lowercased
query, admissions first, then academics, then financial_aid, defaulting to
the general agent (`agent = None`); `routing_confidence` is `"high" if agent
else "low"`.  The session-recording and metrics side effects do not affect
the returned dictionary and are omitted. -/
def route_to_specialist (query : String) : RoutingResult :=
  let query_lower := lowerChars query.toList
  if matchesAny admissionsKeywords query_lower then
    { status := "success", specialist := "admissions",
      agent := some .admissionsAgent, routing_confidence := "high" }
  else if matchesAny academicsKeywords query_lower then
    { status := "success", specialist := "academics",
      agent := some .academicsAgent, routing_confidence := "high" }
  else if matchesAny financialAidKeywords query_lower then
    { status := "success", specialist := "financial_aid",
      agent := some .financialAidAgent, routing_confidence := "high" }
  else
    { status := "success", specialist := "general",
      agent := none, routing_confidence := "low" }

/-! ### SessionManager (`session_memory.py`, class BatesSessionManager) -/

/-- One entry of `self.active_sessions`.  `current_topic` is the value of the
`"current_topic"` key, which `create_session` always inserts (initially
Python `None`, modelled as `none`). -/
structure Session where
  session_id : String
  student_id : String
  created_at : Int
  last_activity : Int
  interaction_count : Nat
  current_topic : Option String
  agent_context : List (String × String)
deriving DecidableEq

structure SessionManager where
  active_sessions : List (String × Session)
  memory_bank : MemoryBank
deriving DecidableEq

/-- `BatesSessionManager.create_session`.  The fresh `uuid4` string is an
external input, passed as `session_id`; `student_id=None` synthesizes
`"anonymous_" + session_id[:8]`.  The closing `get_student_context` call
warms (and touches) the student's profile in the memory bank. -/
def SessionManager.create_session (sm : SessionManager) (session_id : String)
    (student_id : Option String) (now : Int) : String × SessionManager :=
  let sid := match student_id with
    | some s => s
    | none => "anonymous_" ++ String.mk (session_id.toList.take 8)
  let sess : Session :=
    { session_id := session_id, student_id := sid, created_at := now,
      last_activity := now, interaction_count := 0, current_topic := none,
      agent_context := [] }
  let sm1 := { sm with active_sessions := dictSet sm.active_sessions session_id sess }
  let cb := sm1.memory_bank.get_student_context sid now
  (session_id, { sm1 with memory_bank := cb.2 })

/-- `BatesSessionManager.get_session`: on a hit, refreshes the stored
session's `last_activity` and returns a copy of the refreshed session; on a
miss, returns `None` and changes nothing. -/
def SessionManager.get_session (sm : SessionManager) (session_id : String)
    (now : Int) : Option Session × SessionManager :=
  match dictGet sm.active_sessions session_id with
  | none => (none, sm)
  | some s =>
      let s2 := { s with last_activity := now }
      (some s2, { sm with active_sessions := dictSet sm.active_sessions session_id s2 })

/-- `BatesSessionManager.update_session`: merges the `updates` dictionary
(modelled as the field updater `upd`) into the stored session and refreshes
`last_activity`; a no-op for an unknown id. -/
def SessionManager.update_session (sm : SessionManager) (session_id : String)
    (upd : Session → Session) (now : Int) : SessionManager :=
  match dictGet sm.active_sessions session_id with
  | none => sm
  | some s =>
      let s2 := { upd s with last_activity := now }
      { sm with active_sessions := dictSet sm.active_sessions session_id s2 }

/-- `BatesSessionManager.record_interaction`.  An unknown session id returns
early with no state change.  Otherwise the session's interaction counter is
bumped and the interaction forwarded to the memory bank.  The metadata topic
is `session.get("current_topic", "general")`: the `"current_topic"` key is
always present in a session dictionary (it is set by `create_session`), so
`dict.get` returns the stored value — Python `None` included — and the
`"general"` default never fires. -/
def SessionManager.record_interaction (sm : SessionManager)
    (session_id interaction_type content : String)
    (agent_response : Option String) (now : Int) : SessionManager :=
  match sm.get_session session_id now with
  | (none, _) => sm
  | (some s, sm1) =>
      let sm2 := sm1.update_session session_id
        (fun t => { t with interaction_count := s.interaction_count + 1 }) now
      let md : Metadata :=
        { session_id := some session_id
          agent_response := agent_response
          topic := s.current_topic }
      { sm2 with memory_bank :=
          sm2.memory_bank.store_interaction s.student_id interaction_type content (some md) now }

/-- What the claimed contract expects the forwarded topic to be:
`session.current_topic or "general"` — the session's topic, with `"general"`
substituted when the session has no topic. -/
def claimedTopic (s : Session) : Option String :=
  some (s.current_topic.getD "general")

/-- `BatesSessionManager.cleanup_expired_sessions`.  Returns, in order: the
new manager state, the count the method logs
(`len(expired_sessions)`), and the method's Python return value — the body
has no `return` statement, so that value is `None`, modelled as `none`. -/
def SessionManager.cleanup_expired_sessions (sm : SessionManager)
    (max_age_hours : Int) (now : Int) : SessionManager × Nat × Option Nat :=
  let cutoff := now - max_age_hours
  let expired := sm.active_sessions.filter (fun sv => decide (sv.2.last_activity < cutoff))
  let remaining := sm.active_sessions.filter (fun sv => !(decide (sv.2.last_activity < cutoff)))
  ({ sm with active_sessions := remaining }, expired.length, none)

/-! ### Reference semantics of `get_session` / `get_or_create_profile`

`get_session` returns `session.copy()` — a *shallow* `dict.copy()`, so the
nested mutable `agent_context` dictionary is shared between the returned
copy and the stored session.  `get_or_create_profile` returns the stored
`StudentProfile` object itself.  To reason about what a caller's mutation
reaches, this model makes the nested-object references explicit: the
`agent_context` field of a stored session holds the address of its bag in a
heap, and a bank profile entry holds the address of the profile object. -/

/-- A session dictionary under reference semantics: `agent_context` is the
address of the shared mutable bag. -/
structure PySession where
  session_id : String
  student_id : String
  created_at : Int
  last_activity : Int
  interaction_count : Nat
  current_topic : Option String
  agent_context : Nat
deriving DecidableEq

/-- The session registry together with the heap of `agent_context` bags. -/
structure PyRegistry where
  sessions : List (String × PySession)
  ctxHeap : List (Nat × List (String × String))
deriving DecidableEq

/-- `get_session` under reference semantics: refresh `last_activity` in the
store, then hand the caller `session.copy()` — a record equal to the stored
one, `agent_context` address included. -/
def PyRegistry.get_session (r : PyRegistry) (session_id : String) (now : Int) :
    Option PySession × PyRegistry :=
  match dictGet r.sessions session_id with
  | none => (none, r)
  | some s =>
      let s2 := { s with last_activity := now }
      (some s2, { r with sessions := dictSet r.sessions session_id s2 })

/-- The caller's subsequent mutation `returned["agent_context"][k] = v`: a
write through the `agent_context` reference held by the returned copy,
performed without going through any registry operation. -/
def callerWritesContext (r : PyRegistry) (returned : PySession)
    (k v : String) : PyRegistry :=
  let bag := (dictGet r.ctxHeap returned.agent_context).getD []
  { r with ctxHeap := dictSet r.ctxHeap returned.agent_context (dictSet bag k v) }

/-- The `agent_context` contents of the session the registry stores under
`session_id`, read through the stored reference. -/
def storedContext (r : PyRegistry) (session_id : String) :
    Option (List (String × String)) :=
  match dictGet r.sessions session_id with
  | none => none
  | some s => dictGet r.ctxHeap s.agent_context

/-- A memory bank under reference semantics: `self.profiles` maps each
student id to the address of a `StudentProfile` object in the heap. -/
structure PyMemoryBank where
  profileRefs : List (String × Nat)
  profileHeap : List (Nat × StudentProfile)
  nextAddr : Nat
deriving DecidableEq

/-- `get_or_create_profile` under reference semantics: allocate on first
reference, mutate the stored object in place via `update_activity`, and
return `self.profiles[student_id]` — the stored reference itself, not a
copy. -/
def PyMemoryBank.get_or_create_profile (b : PyMemoryBank) (student_id : String)
    (now : Int) : Nat × PyMemoryBank :=
  match dictGet b.profileRefs student_id with
  | some addr =>
      let p := ((dictGet b.profileHeap addr).getD
        (StudentProfile.init student_id now)).update_activity now
      (addr, { b with profileHeap := dictSet b.profileHeap addr p })
  | none =>
      let addr := b.nextAddr
      let p := (StudentProfile.init student_id now).update_activity now
      (addr, { profileRefs := dictSet b.profileRefs student_id addr
               profileHeap := dictSet b.profileHeap addr p
               nextAddr := b.nextAddr + 1 })

/-! ### File-level write discipline of `_save_profiles`

`_save_profiles` writes each snapshot with `open(path, "w")` followed by
`json.dump`: `open(.., "w")` truncates the target in place, and the dump
then streams the new content into it.  The trace below records those file
operations in order; `renameOnto` (an atomic replace of the target by a
separately written temporary) is what the write-new-then-replace discipline
would use, and never occurs in the source. -/

inductive FileEvent where
  | openTrunc : String → FileEvent
  | writeAll : String → FileEvent
  | renameOnto : String → String → FileEvent
deriving DecidableEq

/-- The file operations `_save_profiles` performs, in program order. -/
def save_profiles_events : List FileEvent :=
  [.openTrunc "profiles.json", .writeAll "profiles.json",
   .openTrunc "interactions.json", .writeAll "interactions.json"]

/-- What a concurrent reader of `target` can observe at one instant. -/
inductive ObsContent where
  | oldContent
  | truncated
  | newContent
deriving DecidableEq

/-- How one file operation changes what a reader of `target` observes. -/
def stepObs (target : String) (s : ObsContent) : FileEvent → ObsContent
  | .openTrunc p => if p = target then .truncated else s
  | .writeAll p => if p = target then .newContent else s
  | .renameOnto _ dst => if dst = target then .newContent else s

/-- Every content state a reader of `target` can observe while the trace
runs, the initial state included. -/
def obsStates (target : String) (s : ObsContent) : List FileEvent → List ObsContent
  | [] => [s]
  | e :: tr => s :: obsStates target (stepObs target s e) tr

/-- Modelled from the spec: the write-new-then-replace (atomic replace)
discipline — the saved file is only ever replaced wholesale by renaming a
separately written fresh file onto it, and is never opened for in-place
truncation or written directly. -/
def usesWriteNewThenReplace (tr : List FileEvent) (target : String) : Bool :=
  tr.all fun e =>
    match e with
    | .openTrunc p => p ≠ target
    | .writeAll p => p ≠ target
    | .renameOnto _ _ => true

/-! ### Helper lemmas about the capped-history methods -/

/-- Concrete bank used to instantiate the round-trip law. -/
def c3Bank : MemoryBank :=
  { profiles :=
      [("alice", { student_id := "alice", created_at := 1, last_active := 9,
                   interests := ["nursing", "welding"], programs_viewed := ["RN"],
                   questions_asked := [{ question := "q1", category := "general", timestamp := 2 }],
                   recommendations_given := [{ recommendation := "r1", context := "c1", timestamp := 3 }],
                   interaction_count := 4, preferences := [("style", "short")] }),
       ("bob", { student_id := "bob", created_at := 5, last_active := 6,
                 interests := [], programs_viewed := [],
                 questions_asked := [], recommendations_given := [],
                 interaction_count := 1, preferences := [] })]
    interaction_history :=
      [("alice", [{ timestamp := 7, interaction_type := "question", content := "hello",
                    metadata := Metadata.empty }])] }

/-- Modelled from the spec: the context summary as a function of only the
three bounded signals — up to 3 interests, the 3 most recently viewed
programs, and the topics of the 3 most recent interactions. -/
def summaryOf (ints progs tops : List String) : String :=
  let parts1 : List String :=
    if ints.isEmpty then []
    else ["Student interests: " ++ String.intercalate ", " ints]
  let parts2 : List String :=
    if progs.isEmpty then parts1
    else parts1 ++ ["Programs viewed: " ++ String.intercalate ", " progs]
  let parts3 : List String :=
    if tops.isEmpty then parts2
    else parts2 ++ ["Recent topics: " ++ String.intercalate ", " tops]
  if parts3.isEmpty then "New student interaction"
  else String.intercalate "; " parts3

/-- Profile pairs agreeing on the three bounded signals but differing
elsewhere, used to instantiate the determinism law. -/
def c4ProfileA : StudentProfile :=
  { student_id := "a", created_at := 0, last_active := 10,
    interests := ["hvac", "it", "nursing", "welding"],
    programs_viewed := ["p1", "p2", "p3", "p4"],
    questions_asked := [], recommendations_given := [],
    interaction_count := 3, preferences := [] }

def c4ProfileB : StudentProfile :=
  { student_id := "b", created_at := 5, last_active := 11,
    interests := ["hvac", "it", "nursing", "culinary"],
    programs_viewed := ["p9", "p2", "p3", "p4"],
    questions_asked := [], recommendations_given := [],
    interaction_count := 8, preferences := [("k", "v")] }

/-- A freshly created session for student "stu": `current_topic` is Python
`None`, exactly as `create_session` initializes it. -/
def c5Session : Session :=
  { session_id := "s1", student_id := "stu", created_at := 0,
    last_activity := 0, interaction_count := 0, current_topic := none,
    agent_context := [] }

def c5Manager : SessionManager :=
  { active_sessions := [("s1", c5Session)], memory_bank := MemoryBank.init }

/-- Concrete state refuting "returns the count": one session whose
`last_activity` precedes the cutoff. -/
def c6Manager : SessionManager :=
  { active_sessions :=
      [("old", { session_id := "old", student_id := "stu", created_at := 0,
                 last_activity := 0, interaction_count := 2,
                 current_topic := none, agent_context := [] })]
    memory_bank := MemoryBank.init }

/-- Bank and file states instantiating the failure-isolation law. -/
def c7Bank : MemoryBank :=
  { profiles := [("eve", StudentProfile.init "eve" 4)]
    interaction_history :=
      [("eve", [{ timestamp := 5, interaction_type := "question",
                  content := "hi", metadata := Metadata.empty }])] }

def c7MissingBoth : SnapshotFiles :=
  { profilesFile := FileState.missing, interactionsFile := FileState.missing }

def c7CorruptProfiles : SnapshotFiles :=
  { profilesFile := FileState.corrupt, interactionsFile := FileState.ok [] }

def c7CorruptInteractions : SnapshotFiles :=
  { profilesFile := FileState.ok [], interactionsFile := FileState.corrupt }

def c8Session : PySession :=
  { session_id := "s1", student_id := "stu", created_at := 0,
    last_activity := 0, interaction_count := 0, current_topic := none,
    agent_context := 0 }

def c8Registry : PyRegistry :=
  { sessions := [("s1", c8Session)], ctxHeap := [(0, [])] }

/-- The concrete result of `get_session` on `c8Registry`, used to discharge
the amended law's hypotheses. -/
def c8Refreshed : PySession :=
  { session_id := "s1", student_id := "stu", created_at := 0,
    last_activity := 5, interaction_count := 0, current_topic := none,
    agent_context := 0 }

def c8Registry2 : PyRegistry :=
  { sessions := [("s1", c8Refreshed)], ctxHeap := [(0, [])] }

theorem dictGet_dictSet_self {κ α : Type} [DecidableEq κ]
    (l : List (κ × α)) (k : κ) (v : α) : dictGet (dictSet l k v) k = some v := by
  induction l with
  | nil => simp [dictGet, dictSet]
  | cons hd tl ih =>
      obtain ⟨k1, v1⟩ := hd
      by_cases h : k1 = k
      · simp [dictGet, dictSet, h]
      · simp [dictGet, dictSet, h, ih]

theorem dictGet_dictSet_ne {κ α : Type} [DecidableEq κ]
    (l : List (κ × α)) (k k2 : κ) (v : α) (h : k2 ≠ k) :
    dictGet (dictSet l k v) k2 = dictGet l k2 := by
  have hk : ¬ (k = k2) := fun hh => h (Eq.symm hh)
  induction l with
  | nil => simp [dictGet, dictSet, hk]
  | cons hd tl ih =>
      obtain ⟨k1, v1⟩ := hd
      by_cases h1 : k1 = k
      · subst h1
        simp [dictGet, dictSet, hk]
      · simp [dictGet, dictSet, h1, ih]

theorem dictSet_fresh {κ α : Type} [DecidableEq κ]
    (l : List (κ × α)) (k : κ) (v : α) (h : dictGet l k = none) :
    dictSet l k v = l ++ [(k, v)] := by
  induction l with
  | nil => simp [dictSet]
  | cons hd tl ih =>
      obtain ⟨k1, v1⟩ := hd
      by_cases h1 : k1 = k
      · simp [dictGet, h1] at h
      · simp [dictGet, h1] at h
        simp [dictSet, h1, ih h]

/-! ### Python list slicing `l[-n:]` -/

theorem lastN_of_le {α : Type} {n : Nat} {l : List α} (h : l.length ≤ n) :
    lastN n l = l := by
  simp [lastN, Nat.sub_eq_zero_of_le h]

theorem length_lastN_le {α : Type} (n : Nat) (l : List α) :
    (lastN n l).length ≤ n := by
  simp [lastN]
  omega

/-- Truncating twice commutes with appending: keeping the last `n` of an
already-truncated list extended by `es` agrees with truncating the full
history extended by `es`. -/
theorem lastN_lastN_append {α : Type} (n : Nat) (l es : List α) :
    lastN n (lastN n l ++ es) = lastN n (l ++ es) := by
  by_cases h : l.length ≤ n
  · rw [lastN_of_le h]
  · have hlt : n < l.length := Nat.lt_of_not_le h
    have hB : l.length - (l.length - n) = n := by omega
    simp only [lastN, List.length_append, List.length_drop,
      List.drop_append_eq_append_drop, List.drop_drop, hB]
    congr 1
    · congr 1
      omega
    · congr 1
      omega

/-- The append-then-truncate step used by every capped history in the source
(`l.append(x); if len(l) > cap: l = l[-cap:]`) equals `lastN cap (l ++ [x])`. -/
theorem capStep_eq_lastN {α : Type} (cap : Nat) (l : List α) (x : α) :
    (if cap < (l ++ [x]).length then
        (l ++ [x]).drop ((l ++ [x]).length - cap)
      else l ++ [x]) = lastN cap (l ++ [x]) := by
  by_cases h : cap < (l ++ [x]).length
  · rw [if_pos h]
    rfl
  · rw [if_neg h, lastN_of_le (Nat.le_of_not_lt h)]

/-- Folding the append-then-truncate step over any sequence of new entries,
starting from a history within its cap, yields exactly the most recent `cap`
entries of the full insertion sequence, in insertion order. -/
theorem foldl_capStep_eq_lastN {α : Type} (cap : Nat)
    (step : List α → α → List α)
    (hstep : ∀ l x, step l x = lastN cap (l ++ [x])) :
    ∀ (es start : List α), start.length ≤ cap →
      es.foldl step start = lastN cap (start ++ es) := by
  intro es
  induction es with
  | nil =>
      intro start hs
      simp [lastN_of_le hs]
  | cons x rest ih =>
      intro start hs
      have hlen : (step start x).length ≤ cap := by
        rw [hstep]; exact length_lastN_le cap _
      calc (x :: rest).foldl step start = rest.foldl step (step start x) := rfl
        _ = lastN cap (step start x ++ rest) := ih _ hlen
        _ = lastN cap (lastN cap (start ++ [x]) ++ rest) := by rw [hstep]
        _ = lastN cap ((start ++ [x]) ++ rest) := lastN_lastN_append cap _ _
        _ = lastN cap (start ++ x :: rest) := by simp

/-! ### StudentProfile (`session_memory.py`, class StudentProfile) -/

theorem add_question_questions (p : StudentProfile) (q c : String) (t : Int) :
    (p.add_question q c t).questions_asked =
      lastN 50 (p.questions_asked ++ [{ question := q, category := c, timestamp := t }]) := by
  simpa [StudentProfile.add_question] using
    capStep_eq_lastN 50 p.questions_asked { question := q, category := c, timestamp := t }

theorem add_recommendation_recs (p : StudentProfile) (r c : String) (t : Int) :
    (p.add_recommendation r c t).recommendations_given =
      lastN 20 (p.recommendations_given ++
        [{ recommendation := r, context := c, timestamp := t }]) := by
  simpa [StudentProfile.add_recommendation] using
    capStep_eq_lastN 20 p.recommendations_given
      { recommendation := r, context := c, timestamp := t }

theorem store_interaction_history_self (b : MemoryBank)
    (sid ty c : String) (m : Option Metadata) (t : Int) :
    (dictGet (b.store_interaction sid ty c m t).interaction_history sid).getD [] =
      lastN 100 (((dictGet b.interaction_history sid).getD []) ++
        [{ timestamp := t, interaction_type := ty, content := c,
           metadata := m.getD Metadata.empty }]) := by
  have h := capStep_eq_lastN 100 ((dictGet b.interaction_history sid).getD [])
    { timestamp := t, interaction_type := ty, content := c,
      metadata := m.getD Metadata.empty }
  simp [MemoryBank.store_interaction, dictGet_dictSet_self]
  simpa using h

theorem foldl_add_question_questions (qs : List (String × String × Int))
    (p : StudentProfile) :
    (qs.foldl (fun p q => p.add_question q.1 q.2.1 q.2.2) p).questions_asked =
      (qs.map fun q =>
        ({ question := q.1, category := q.2.1, timestamp := q.2.2 } : QuestionEntry)).foldl
        (fun l e => lastN 50 (l ++ [e])) p.questions_asked := by
  induction qs generalizing p with
  | nil => rfl
  | cons q rest ih =>
      simp only [List.foldl_cons, List.map_cons, ih, add_question_questions]

theorem foldl_add_recommendation_recs (rs : List (String × String × Int))
    (p : StudentProfile) :
    (rs.foldl (fun p r => p.add_recommendation r.1 r.2.1 r.2.2) p).recommendations_given =
      (rs.map fun r =>
        ({ recommendation := r.1, context := r.2.1, timestamp := r.2.2 } : RecommendationEntry)).foldl
        (fun l e => lastN 20 (l ++ [e])) p.recommendations_given := by
  induction rs generalizing p with
  | nil => rfl
  | cons r rest ih =>
      simp only [List.foldl_cons, List.map_cons, ih, add_recommendation_recs]

theorem foldl_store_interaction_history
    (ins : List (String × String × Option Metadata × Int)) (sid : String)
    (b : MemoryBank) :
    (dictGet ((ins.foldl
        (fun b i => b.store_interaction sid i.1 i.2.1 i.2.2.1 i.2.2.2)
        b).interaction_history) sid).getD [] =
      (ins.map fun i =>
        ({ timestamp := i.2.2.2, interaction_type := i.1, content := i.2.1,
           metadata := (i.2.2.1).getD Metadata.empty } : Interaction)).foldl
        (fun l e => lastN 100 (l ++ [e])) ((dictGet b.interaction_history sid).getD []) := by
  induction ins generalizing b with
  | nil => rfl
  | cons i rest ih =>
      simp only [List.foldl_cons, List.map_cons, ih, store_interaction_history_self]

/-- C1: for every sequence of operations on one student, the bounded history
lists never exceed their caps and hold exactly the most recently added
entries in insertion order — after any sequence of `add_question` calls
`questions_asked` is the last 50 of the insertion sequence; after any
sequence of `add_recommendation` calls `recommendations_given` is the last
20; after any sequence of `store_interaction` calls the student's
`interaction_history` entry is the last 100. -/
theorem claim_C1_capped_histories (sid : String) (t0 : Int)
    (qs : List (String × String × Int)) (rs : List (String × String × Int))
    (ins : List (String × String × Option Metadata × Int)) :
    ((qs.foldl (fun p q => p.add_question q.1 q.2.1 q.2.2)
        (StudentProfile.init sid t0)).questions_asked =
      lastN 50 (qs.map fun q =>
        ({ question := q.1, category := q.2.1, timestamp := q.2.2 } : QuestionEntry)))
    ∧ ((qs.foldl (fun p q => p.add_question q.1 q.2.1 q.2.2)
        (StudentProfile.init sid t0)).questions_asked.length ≤ 50)
    ∧ ((rs.foldl (fun p r => p.add_recommendation r.1 r.2.1 r.2.2)
        (StudentProfile.init sid t0)).recommendations_given =
      lastN 20 (rs.map fun r =>
        ({ recommendation := r.1, context := r.2.1, timestamp := r.2.2 } : RecommendationEntry)))
    ∧ ((rs.foldl (fun p r => p.add_recommendation r.1 r.2.1 r.2.2)
        (StudentProfile.init sid t0)).recommendations_given.length ≤ 20)
    ∧ ((dictGet ((ins.foldl
        (fun b i => b.store_interaction sid i.1 i.2.1 i.2.2.1 i.2.2.2)
        MemoryBank.init).interaction_history) sid).getD [] =
      lastN 100 (ins.map fun i =>
        ({ timestamp := i.2.2.2, interaction_type := i.1, content := i.2.1,
           metadata := (i.2.2.1).getD Metadata.empty } : Interaction)))
    ∧ (((dictGet ((ins.foldl
        (fun b i => b.store_interaction sid i.1 i.2.1 i.2.2.1 i.2.2.2)
        MemoryBank.init).interaction_history) sid).getD []).length ≤ 100) := by
  have hq : (qs.foldl (fun p q => p.add_question q.1 q.2.1 q.2.2)
      (StudentProfile.init sid t0)).questions_asked =
      lastN 50 (qs.map fun q =>
        ({ question := q.1, category := q.2.1, timestamp := q.2.2 } : QuestionEntry)) := by
    rw [foldl_add_question_questions]
    have h := foldl_capStep_eq_lastN 50 (fun l e => lastN 50 (l ++ [e]))
      (fun l x => rfl)
      (qs.map fun q =>
        ({ question := q.1, category := q.2.1, timestamp := q.2.2 } : QuestionEntry))
      (StudentProfile.init sid t0).questions_asked (by simp [StudentProfile.init])
    simpa [StudentProfile.init] using h
  have hr : (rs.foldl (fun p r => p.add_recommendation r.1 r.2.1 r.2.2)
      (StudentProfile.init sid t0)).recommendations_given =
      lastN 20 (rs.map fun r =>
        ({ recommendation := r.1, context := r.2.1, timestamp := r.2.2 } : RecommendationEntry)) := by
    rw [foldl_add_recommendation_recs]
    have h := foldl_capStep_eq_lastN 20 (fun l e => lastN 20 (l ++ [e]))
      (fun l x => rfl)
      (rs.map fun r =>
        ({ recommendation := r.1, context := r.2.1, timestamp := r.2.2 } : RecommendationEntry))
      (StudentProfile.init sid t0).recommendations_given (by simp [StudentProfile.init])
    simpa [StudentProfile.init] using h
  have hi : (dictGet ((ins.foldl
      (fun b i => b.store_interaction sid i.1 i.2.1 i.2.2.1 i.2.2.2)
      MemoryBank.init).interaction_history) sid).getD [] =
      lastN 100 (ins.map fun i =>
        ({ timestamp := i.2.2.2, interaction_type := i.1, content := i.2.1,
           metadata := (i.2.2.1).getD Metadata.empty } : Interaction)) := by
    rw [foldl_store_interaction_history]
    have h := foldl_capStep_eq_lastN 100 (fun l e => lastN 100 (l ++ [e]))
      (fun l x => rfl)
      (ins.map fun i =>
        ({ timestamp := i.2.2.2, interaction_type := i.1, content := i.2.1,
           metadata := (i.2.2.1).getD Metadata.empty } : Interaction))
      ((dictGet MemoryBank.init.interaction_history sid).getD [])
      (by simp [MemoryBank.init, dictGet])
    simpa [MemoryBank.init, dictGet] using h
  refine ⟨hq, ?_, hr, ?_, hi, ?_⟩
  · rw [hq]
    exact length_lastN_le 50 _
  · rw [hr]
    exact length_lastN_le 20 _
  · rw [hi]
    exact length_lastN_le 100 _

/-- C2: routing is a deterministic first-match classifier — admissions
keywords are checked first, then academics, then financial_aid; no match
yields specialist `"general"` with `routing_confidence` `"low"`, any match
yields `"high"` (confidence is exactly the presence of a specialist agent);
and the query "apply for financial aid program" routes to admissions. -/
theorem claim_C2_first_match_routing (q : String) :
    ((route_to_specialist q).specialist = "admissions" ↔
      matchesAny admissionsKeywords (lowerChars q.toList) = true)
    ∧ ((route_to_specialist q).specialist = "academics" ↔
      (matchesAny admissionsKeywords (lowerChars q.toList) = false ∧
        matchesAny academicsKeywords (lowerChars q.toList) = true))
    ∧ ((route_to_specialist q).specialist = "financial_aid" ↔
      (matchesAny admissionsKeywords (lowerChars q.toList) = false ∧
        matchesAny academicsKeywords (lowerChars q.toList) = false ∧
        matchesAny financialAidKeywords (lowerChars q.toList) = true))
    ∧ (((route_to_specialist q).specialist = "general" ∧
        (route_to_specialist q).routing_confidence = "low") ↔
      (matchesAny admissionsKeywords (lowerChars q.toList) = false ∧
        matchesAny academicsKeywords (lowerChars q.toList) = false ∧
        matchesAny financialAidKeywords (lowerChars q.toList) = false))
    ∧ ((route_to_specialist q).routing_confidence = "high" ↔
      (route_to_specialist q).agent.isSome = true)
    ∧ ((route_to_specialist q).routing_confidence = "high" ↔
      (matchesAny admissionsKeywords (lowerChars q.toList) = true ∨
        matchesAny academicsKeywords (lowerChars q.toList) = true ∨
        matchesAny financialAidKeywords (lowerChars q.toList) = true))
    ∧ route_to_specialist "apply for financial aid program" =
      { status := "success", specialist := "admissions",
        agent := some SpecialistAgent.admissionsAgent, routing_confidence := "high" } := by
  refine ⟨?_, ?_, ?_, ?_, ?_, ?_, by decide⟩ <;>
  · simp only [route_to_specialist]
    cases hA : matchesAny admissionsKeywords (lowerChars q.toList) <;>
      cases hB : matchesAny academicsKeywords (lowerChars q.toList) <;>
      cases hC : matchesAny financialAidKeywords (lowerChars q.toList) <;>
      simp

/-! ### C3: round-trip of profile snapshots -/

theorem from_dict_to_dict (p : StudentProfile) :
    StudentProfile.from_dict (StudentProfile.to_dict p) = p := rfl

theorem dictGet_append_singleton_none {κ α : Type} [DecidableEq κ]
    (l : List (κ × α)) (k k2 : κ) (v : α)
    (h : dictGet l k2 = none) (hne : ¬ (k = k2)) :
    dictGet (l ++ [(k, v)]) k2 = none := by
  induction l with
  | nil => simp [dictGet, hne]
  | cons hd tl ih =>
      obtain ⟨k1, v1⟩ := hd
      by_cases h1 : k1 = k2
      · simp [dictGet, h1] at h
      · simp [dictGet, h1] at h
        simp [dictGet, h1, ih h]

theorem loadAllProfiles_roundtrip (l : List (String × StudentProfile)) :
    ∀ acc : List (String × StudentProfile),
      (l.map Prod.fst).Nodup →
      (∀ k ∈ l.map Prod.fst, dictGet acc k = none) →
      loadAllProfiles acc (l.map fun sp => (sp.1, sp.2.to_dict)) = acc ++ l := by
  induction l with
  | nil =>
      intro acc _ _
      simp [loadAllProfiles]
  | cons hd tl ih =>
      intro acc hnd hfresh
      obtain ⟨k, p⟩ := hd
      have hk : dictGet acc k = none := hfresh k (by simp)
      have hstep : dictSet acc k (StudentProfile.from_dict (StudentProfile.to_dict p)) =
          acc ++ [(k, p)] := by
        rw [from_dict_to_dict]
        exact dictSet_fresh acc k p hk
      have hnd3 : ((k, p).1 :: tl.map Prod.fst).Nodup := by
        rw [List.map_cons] at hnd
        exact hnd
      have hknotin : k ∉ tl.map Prod.fst := (List.nodup_cons.mp hnd3).1
      have hnd2 : (tl.map Prod.fst).Nodup := (List.nodup_cons.mp hnd3).2
      have hfresh2 : ∀ k2 ∈ tl.map Prod.fst, dictGet (acc ++ [(k, p)]) k2 = none := by
        intro k2 hk2
        have hne : ¬ (k = k2) := fun he => hknotin (he ▸ hk2)
        exact dictGet_append_singleton_none acc k k2 p (hfresh k2 (by simp [hk2])) hne
      calc loadAllProfiles acc (((k, p) :: tl).map fun sp => (sp.1, sp.2.to_dict))
          = loadAllProfiles (dictSet acc k (StudentProfile.from_dict (StudentProfile.to_dict p)))
              (tl.map fun sp => (sp.1, sp.2.to_dict)) := rfl
        _ = (acc ++ [(k, p)]) ++ tl := by rw [hstep, ih _ hnd2 hfresh2]
        _ = acc ++ (k, p) :: tl := by simp

/-- C3: `from_dict` inverts `to_dict` on every profile field, and a snapshot
written by `_save_profiles` and loaded by a fresh store's `_load_profiles`
reconstructs every profile (and the interaction history) equal to the
pre-snapshot in-memory state. -/
theorem claim_C3_profile_roundtrip :
    (∀ p : StudentProfile, StudentProfile.from_dict (StudentProfile.to_dict p) = p)
    ∧ (∀ b : MemoryBank, (b.profiles.map Prod.fst).Nodup →
        MemoryBank.init.load_profiles
          { profilesFile := FileState.ok (save_profiles_data b)
            interactionsFile := FileState.ok b.interaction_history } = b) := by
  constructor
  · exact from_dict_to_dict
  · intro b hnd
    have h := loadAllProfiles_roundtrip b.profiles [] hnd (by intro k _; rfl)
    simp only [MemoryBank.load_profiles, MemoryBank.init, save_profiles_data]
    obtain ⟨ps, ih⟩ := b
    simp only at h
    simp [h]

theorem claim_C3_witness :
    MemoryBank.init.load_profiles
      { profilesFile := FileState.ok (save_profiles_data c3Bank)
        interactionsFile := FileState.ok c3Bank.interaction_history } = c3Bank :=
  claim_C3_profile_roundtrip.2 c3Bank (by decide)

/-! ### C4: the derived context summary -/

theorem isEmpty_take3 {α : Type} (l : List α) :
    (l.take 3).isEmpty = l.isEmpty := by
  cases l <;> rfl

theorem lastN_ne_nil {α : Type} {n : Nat} (hn : 0 < n) {l : List α}
    (h : l ≠ []) : lastN n l ≠ [] := by
  rw [lastN, Ne, List.drop_eq_nil_iff]
  have hl : 0 < l.length := List.length_pos.mpr h
  omega

theorem isEmpty_lastN {α : Type} {n : Nat} (hn : 0 < n) (l : List α) :
    (lastN n l).isEmpty = l.isEmpty := by
  cases hl : l with
  | nil => simp [lastN]
  | cons a t =>
      have h2 : lastN n (a :: t) ≠ [] := lastN_ne_nil hn (by simp)
      cases h3 : (lastN n (a :: t)).isEmpty with
      | false => rfl
      | true => exact absurd (List.isEmpty_iff.mp h3) h2

/-- `_generate_context_summary` reads the profile and the interactions only
through the three bounded projections. -/
theorem generate_context_summary_eq (p : StudentProfile) (i : List Interaction) :
    generate_context_summary p i =
      summaryOf (p.interests.take 3) (lastN 3 p.programs_viewed)
        ((lastN 3 i).map fun x => x.metadata.topic.getD "general") := by
  have h1 : (p.interests.take 3).isEmpty = p.interests.isEmpty := isEmpty_take3 _
  have h2 : (lastN 3 p.programs_viewed).isEmpty = p.programs_viewed.isEmpty :=
    isEmpty_lastN (by omega) _
  have h3 : (((lastN 3 i).map fun x => x.metadata.topic.getD "general")).isEmpty
      = i.isEmpty := by
    cases hI : i with
    | nil => rfl
    | cons a t =>
        have hne : lastN 3 (a :: t) ≠ [] := lastN_ne_nil (by omega) (by simp)
        have hne2 : ((lastN 3 (a :: t)).map
            fun x => x.metadata.topic.getD "general") ≠ [] := by
          rw [Ne, List.map_eq_nil_iff]
          exact hne
        cases h4 : ((lastN 3 (a :: t)).map
            fun x => x.metadata.topic.getD "general").isEmpty with
        | false => rfl
        | true => exact absurd (List.isEmpty_iff.mp h4) hne2
  simp only [generate_context_summary, summaryOf, h1, h2, h3]

/-- C4: the context summary is a deterministic function of at most 3
interests, the 3 most recently viewed programs, and the topics of the 3
most recent interactions (`"general"` substituted for an absent topic); and
for a brand-new student — no stored profile, no interests, no programs, no
interactions — `get_student_context` produces exactly
"New student interaction". -/
theorem claim_C4_context_summary :
    (∀ (p1 p2 : StudentProfile) (i1 i2 : List Interaction),
        p1.interests.take 3 = p2.interests.take 3 →
        lastN 3 p1.programs_viewed = lastN 3 p2.programs_viewed →
        ((lastN 3 i1).map fun x => x.metadata.topic.getD "general") =
          ((lastN 3 i2).map fun x => x.metadata.topic.getD "general") →
        generate_context_summary p1 i1 = generate_context_summary p2 i2)
    ∧ (∀ (b : MemoryBank) (sid : String) (now : Int),
        dictGet b.profiles sid = none →
        dictGet b.interaction_history sid = none →
        (b.get_student_context sid now).1.context_summary =
          "New student interaction") := by
  constructor
  · intro p1 p2 i1 i2 hints hprogs htops
    rw [generate_context_summary_eq, generate_context_summary_eq,
      hints, hprogs, htops]
  · intro b sid now hp hi
    simp only [MemoryBank.get_student_context, MemoryBank.get_or_create_profile, hp, hi]
    simp [generate_context_summary, StudentProfile.update_activity,
      StudentProfile.init, hi, lastN]

theorem claim_C4_witness :
    generate_context_summary c4ProfileA [] = generate_context_summary c4ProfileB []
    ∧ (MemoryBank.init.get_student_context "newkid" 0).1.context_summary =
        "New student interaction" :=
  ⟨claim_C4_context_summary.1 c4ProfileA c4ProfileB [] []
      (by decide) (by decide) rfl,
    claim_C4_context_summary.2 MemoryBank.init "newkid" 0 rfl rfl⟩

/-! ### C5: record_interaction and the forwarded topic -/

/-- C5, evaluated at the failing input: recording an interaction on a known
session increments that session's counter by one and forwards
`session_id` and `agent_response` as claimed, and recording on an unknown
session id changes nothing — but the forwarded metadata topic is the raw
stored `current_topic` (Python `None`), not the claimed
`current_topic or "general"`: `session.get("current_topic", "general")`
never falls back because the key is always present. -/
theorem claim_C5_topic_fallback_bug :
    (dictGet (c5Manager.record_interaction "s1" "question" "hi"
        (some "resp") 7).memory_bank.interaction_history "stu" =
      some [{ timestamp := 7, interaction_type := "question", content := "hi",
              metadata := { session_id := some "s1",
                            agent_response := some "resp", topic := none } }])
    ∧ ((dictGet (c5Manager.record_interaction "s1" "question" "hi"
        (some "resp") 7).active_sessions "s1").map Session.interaction_count =
      some 1)
    ∧ (c5Manager.record_interaction "unknown" "question" "hi" (some "resp") 7 =
      c5Manager)
    ∧ claimedTopic c5Session = some "general"
    ∧ ({ session_id := some "s1", agent_response := some "resp",
         topic := none } : Metadata) ≠
      { session_id := some "s1", agent_response := some "resp",
        topic := claimedTopic c5Session } := by
  decide

/-! ### C6: the expiry sweep -/

theorem length_filter_partition {α : Type} (p : α → Bool) (l : List α) :
    (l.filter p).length + (l.filter fun a => !(p a)).length = l.length := by
  induction l with
  | nil => rfl
  | cons a t ih =>
      cases h : p a <;> simp [List.filter_cons, h] <;> omega

/-- C6 counterexample: the sweep at `now = 10` with `ttl = 1` removes the
one expired session and logs a count of 1, but the method body has no
`return` statement — its Python return value is `None`, not the count, so
"returns the count of removed sessions" fails here. -/
theorem claim_C6_counterexample :
    (c6Manager.cleanup_expired_sessions 1 10).2.1 = 1
    ∧ (c6Manager.cleanup_expired_sessions 1 10).1.active_sessions = []
    ∧ (c6Manager.cleanup_expired_sessions 1 10).2.2 ≠
      some (c6Manager.cleanup_expired_sessions 1 10).2.1 := by
  decide

/-- C6 as amended: the sweep retains exactly the sessions whose
`last_activity` is at or after `now - ttl` (so it removes exactly the
expired ones), the removed count it logs accounts for every removed entry,
the method itself returns `None` rather than that count, and with
`ttl = 0` exactly the sessions whose `last_activity` precedes the sweep
instant are removed. -/
theorem claim_C6_sweep_amended (sm : SessionManager) (ttl now : Int)
    (e : String × Session) :
    (e ∈ (sm.cleanup_expired_sessions ttl now).1.active_sessions ↔
      (e ∈ sm.active_sessions ∧ now - ttl ≤ e.2.last_activity))
    ∧ ((sm.cleanup_expired_sessions ttl now).2.1 +
        (sm.cleanup_expired_sessions ttl now).1.active_sessions.length =
      sm.active_sessions.length)
    ∧ (sm.cleanup_expired_sessions ttl now).2.2 = none
    ∧ (e ∈ (sm.cleanup_expired_sessions 0 now).1.active_sessions ↔
      (e ∈ sm.active_sessions ∧ now ≤ e.2.last_activity)) := by
  refine ⟨?_, ?_, rfl, ?_⟩
  · simp [SessionManager.cleanup_expired_sessions, List.mem_filter, Int.not_lt]
  · exact length_filter_partition _ sm.active_sessions
  · simp [SessionManager.cleanup_expired_sessions, List.mem_filter, Int.not_lt]

/-! ### C7: snapshot failures never propagate -/

/-- C7: a missing snapshot file is not an error (the store keeps its state,
so a fresh store starts empty), a read failure is caught and leaves the
in-memory state as it was, a failure on the interactions file leaves the
interaction history untouched, and a save failure in any combination leaves
the in-memory bank unchanged. -/
theorem claim_C7_snapshot_failure_isolation :
    (∀ (b : MemoryBank) (fs : SnapshotFiles),
        fs.profilesFile = FileState.missing →
        fs.interactionsFile = FileState.missing →
        b.load_profiles fs = b)
    ∧ (∀ (b : MemoryBank) (fs : SnapshotFiles),
        fs.profilesFile = FileState.corrupt →
        b.load_profiles fs = b)
    ∧ (∀ (b : MemoryBank) (fs : SnapshotFiles),
        fs.interactionsFile = FileState.corrupt →
        (b.load_profiles fs).interaction_history = b.interaction_history)
    ∧ (∀ (b : MemoryBank) (fs : SnapshotFiles) (oc : SaveOutcome),
        (b.save_profiles fs oc).1 = b)
    ∧ MemoryBank.init.load_profiles
        { profilesFile := FileState.missing,
          interactionsFile := FileState.missing } = MemoryBank.init := by
  refine ⟨?_, ?_, ?_, ?_, rfl⟩
  · intro b fs h1 h2
    obtain ⟨pf, itf⟩ := fs
    simp only at h1 h2
    subst h1; subst h2
    rfl
  · intro b fs h1
    obtain ⟨pf, itf⟩ := fs
    simp only at h1
    subst h1
    rfl
  · intro b fs h2
    obtain ⟨pf, itf⟩ := fs
    simp only at h2
    subst h2
    cases pf <;> rfl
  · intro b fs oc
    by_cases h1 : oc.profilesWriteFails <;> by_cases h2 : oc.interactionsWriteFails <;>
      simp [MemoryBank.save_profiles, h1, h2]

theorem claim_C7_witness :
    c7Bank.load_profiles c7MissingBoth = c7Bank
    ∧ c7Bank.load_profiles c7CorruptProfiles = c7Bank
    ∧ (c7Bank.load_profiles c7CorruptInteractions).interaction_history =
      c7Bank.interaction_history
    ∧ (c7Bank.save_profiles c7MissingBoth
        { profilesWriteFails := true, interactionsWriteFails := false }).1 = c7Bank :=
  ⟨claim_C7_snapshot_failure_isolation.1 c7Bank c7MissingBoth rfl rfl,
   claim_C7_snapshot_failure_isolation.2.1 c7Bank c7CorruptProfiles rfl,
   claim_C7_snapshot_failure_isolation.2.2.1 c7Bank c7CorruptInteractions rfl,
   claim_C7_snapshot_failure_isolation.2.2.2.1 c7Bank c7MissingBoth
     { profilesWriteFails := true, interactionsWriteFails := false }⟩

/-! ### C8: reads hand out shared references, not isolated copies -/

/-- C8 counterexample: the caller takes the copy `get_session` returned and
writes a key into its `agent_context` bag; because `session.copy()` is a
shallow copy, the `agent_context` seen through the registry's stored
session changes from `[]` to `[("k", "v")]` — the stored session does not
stay unchanged. -/
theorem claim_C8_counterexample :
    storedContext (c8Registry.get_session "s1" 5).2 "s1" = some []
    ∧ storedContext
        (callerWritesContext (c8Registry.get_session "s1" 5).2
          (((c8Registry.get_session "s1" 5).1).getD c8Session) "k" "v") "s1" =
      some [("k", "v")]
    ∧ some [("k", "v")] ≠ some ([] : List (String × String)) := by
  decide

/-- C8 as amended: `get_session` returns a top-level (shallow) copy — a
record equal to the stored one, so caller-local writes to its top-level
fields touch only the caller's value — but the nested `agent_context` bag
is shared: a caller write through the returned copy is visible through the
registry's stored session; and `get_or_create_profile` returns the live
stored profile reference, not a copy. -/
theorem claim_C8_shallow_copy_amended :
    (∀ (r : PyRegistry) (sid : String) (now : Int) (s : PySession) (r2 : PyRegistry),
        r.get_session sid now = (some s, r2) →
        dictGet r2.sessions sid = some s)
    ∧ (∀ (r : PyRegistry) (sid : String) (now : Int) (s : PySession)
        (r2 : PyRegistry) (k v : String),
        r.get_session sid now = (some s, r2) →
        storedContext (callerWritesContext r2 s k v) sid =
          some (dictSet ((storedContext r2 sid).getD []) k v))
    ∧ (∀ (b : PyMemoryBank) (sid : String) (now : Int),
        dictGet (b.get_or_create_profile sid now).2.profileRefs sid =
          some (b.get_or_create_profile sid now).1) := by
  have hstored : ∀ (r : PyRegistry) (sid : String) (now : Int) (s : PySession)
      (r2 : PyRegistry), r.get_session sid now = (some s, r2) →
      dictGet r2.sessions sid = some s := by
    intro r sid now s r2 h
    cases hs : dictGet r.sessions sid with
    | none =>
        rw [PyRegistry.get_session, hs] at h
        exact absurd (congrArg Prod.fst h) (by simp)
    | some s0 =>
        rw [PyRegistry.get_session, hs] at h
        have hfst : some { s0 with last_activity := now } = some s :=
          congrArg Prod.fst h
        have hsnd : ({ r with sessions :=
            (dictSet r.sessions sid ({ s0 with last_activity := now })) } : PyRegistry) = r2 :=
          congrArg Prod.snd h
        rw [← hsnd]
        simp only
        rw [dictGet_dictSet_self]
        exact hfst
  refine ⟨hstored, ?_, ?_⟩
  · intro r sid now s r2 k v h
    have hs := hstored r sid now s r2 h
    simp only [storedContext, callerWritesContext, hs, dictGet_dictSet_self]
  · intro b sid now
    cases hs : dictGet b.profileRefs sid with
    | none =>
        simp only [PyMemoryBank.get_or_create_profile, hs]
        exact dictGet_dictSet_self _ _ _
    | some addr =>
        simp only [PyMemoryBank.get_or_create_profile, hs]

theorem claim_C8_witness :
    dictGet c8Registry2.sessions "s1" = some c8Refreshed
    ∧ storedContext (callerWritesContext c8Registry2 c8Refreshed "k2" "v2") "s1" =
      some (dictSet ((storedContext c8Registry2 "s1").getD []) "k2" "v2")
    ∧ dictGet (PyMemoryBank.get_or_create_profile
        { profileRefs := [], profileHeap := [], nextAddr := 0 } "stu" 3).2.profileRefs
        "stu" =
      some (PyMemoryBank.get_or_create_profile
        { profileRefs := [], profileHeap := [], nextAddr := 0 } "stu" 3).1 :=
  ⟨claim_C8_shallow_copy_amended.1 c8Registry "s1" 5 c8Refreshed c8Registry2 (by decide),
   claim_C8_shallow_copy_amended.2.1 c8Registry "s1" 5 c8Refreshed c8Registry2 "k2" "v2"
     (by decide),
   claim_C8_shallow_copy_amended.2.2
     { profileRefs := [], profileHeap := [], nextAddr := 0 } "stu" 3⟩

/-! ### C9: the snapshot write discipline -/

/-- C9 counterexample: `_save_profiles` opens both target files with a
truncating `open(path, "w")`, so the write-new-then-replace discipline
fails for both files, and a reader of `profiles.json` can observe the
truncated intermediate state — content that is neither the old nor the new
snapshot. -/
theorem claim_C9_counterexample :
    usesWriteNewThenReplace save_profiles_events "profiles.json" = false
    ∧ usesWriteNewThenReplace save_profiles_events "interactions.json" = false
    ∧ ObsContent.truncated ∈
      obsStates "profiles.json" ObsContent.oldContent save_profiles_events := by
  decide

/-- C9 as amended: each snapshot write truncates the target in place and
then streams the new content, with no rename step at all, so a concurrent
reader of either file passes through an observable truncated state between
the open and the completed write. -/
theorem claim_C9_inplace_write :
    obsStates "profiles.json" ObsContent.oldContent save_profiles_events =
      [ObsContent.oldContent, ObsContent.truncated, ObsContent.newContent,
       ObsContent.newContent, ObsContent.newContent]
    ∧ obsStates "interactions.json" ObsContent.oldContent save_profiles_events =
      [ObsContent.oldContent, ObsContent.oldContent, ObsContent.oldContent,
       ObsContent.truncated, ObsContent.newContent]
    ∧ (save_profiles_events.all fun e =>
        match e with
        | FileEvent.renameOnto _ _ => false
        | _ => true) = true := by
  decide

/-! ### C10: per-student isolation -/

/-- C10: storing an interaction for student `s` or touching `s`'s profile
leaves every other student's profile and interaction-history entry exactly
as they were. -/
theorem claim_C10_per_student_isolation (b : MemoryBank)
    (s t ty c : String) (m : Option Metadata) (now : Int) (h : t ≠ s) :
    dictGet (b.store_interaction s ty c m now).profiles t = dictGet b.profiles t
    ∧ dictGet (b.store_interaction s ty c m now).interaction_history t =
      dictGet b.interaction_history t
    ∧ dictGet (b.get_or_create_profile s now).2.profiles t = dictGet b.profiles t
    ∧ dictGet (b.get_or_create_profile s now).2.interaction_history t =
      dictGet b.interaction_history t := by
  refine ⟨rfl, ?_, ?_, rfl⟩
  · exact dictGet_dictSet_ne _ _ _ _ h
  · exact dictGet_dictSet_ne _ _ _ _ h

theorem claim_C10_witness :
    dictGet (c3Bank.store_interaction "alice" "question" "hi" none 9).profiles "bob" =
      dictGet c3Bank.profiles "bob"
    ∧ dictGet (c3Bank.store_interaction "alice" "question" "hi" none 9).interaction_history
        "bob" = dictGet c3Bank.interaction_history "bob"
    ∧ dictGet (c3Bank.get_or_create_profile "alice" 9).2.profiles "bob" =
      dictGet c3Bank.profiles "bob"
    ∧ dictGet (c3Bank.get_or_create_profile "alice" 9).2.interaction_history "bob" =
      dictGet c3Bank.interaction_history "bob" :=
  claim_C10_per_student_isolation c3Bank "alice" "bob" "question" "hi" none 9
    (by decide)
